import Mathlib

/-!
# LampArray protocol engine (quantum/lamparray.c)

A shallow embedding of the HID LampArray engine of the firmware: the attribute
cursor, the autonomous / host-controlled mode flag, and the range and multi
update handlers, together with the log of calls they make to the backing store.

Machine integers are natural numbers; where an increment can overflow the
wrap-around is written out (`% 65536` for `uint16_t`, `% 256` for `uint8_t`).
The two `for` loops are modelled with a fuel argument that bounds the number of
times the loop body may run; running out of fuel yields `none`.
-/

namespace LampArray

/-! ## Constants of quantum/lamparray.h and quantum/lamparray.c -/

/-- The value of `LAMPARRAY_KIND_KEYBOARD`. -/
def LAMPARRAY_KIND_KEYBOARD : Nat := 0x01

/-- The value of `LAMPARRAY_KIND_MOUSE`. -/
def LAMPARRAY_KIND_MOUSE : Nat := 0x02

/-- The value of `LAMP_PURPOSE_CONTROL`. -/
def LAMP_PURPOSE_CONTROL : Nat := 0x01

/-- The value of `LAMP_PURPOSE_ACCENT`. -/
def LAMP_PURPOSE_ACCENT : Nat := 0x02

/-- The value of `LAMP_UPDATE_FLAG_COMPLETE`: the batch-complete bit of `flags`. -/
def LAMP_UPDATE_FLAG_COMPLETE : Nat := 0x01

/-- The value of `LAMP_MULTI_UPDATE_LAMP_COUNT`: the size of the `ids` and `colors` arrays. -/
def LAMP_MULTI_UPDATE_LAMP_COUNT : Nat := 8

/-- The value of `LAMPARRAY_RED_LEVELS` under `RGB_MATRIX_ENABLE`. -/
def LAMPARRAY_RED_LEVELS : Nat := 255

/-- The value of `LAMPARRAY_GREEN_LEVELS` under `RGB_MATRIX_ENABLE`. -/
def LAMPARRAY_GREEN_LEVELS : Nat := 255

/-- The value of `LAMPARRAY_BLUE_LEVELS` under `RGB_MATRIX_ENABLE`. -/
def LAMPARRAY_BLUE_LEVELS : Nat := 255

/-- The value of `LAMPARRAY_INTENSITY_LEVELS` under `RGB_MATRIX_ENABLE`. -/
def LAMPARRAY_INTENSITY_LEVELS : Nat := 1

/-! ## Data model (quantum/lamparray.h) -/

/-- The struct `lamp_state_t`: four `uint8_t` channels. -/
structure lamp_state_t where
  red : Nat
  green : Nat
  blue : Nat
  intensity : Nat
deriving DecidableEq, Repr

/-- The anonymous `bounds` struct of `lamparray_attributes_t` (three `uint32_t`). -/
structure bounds_t where
  width : Nat
  height : Nat
  depth : Nat
deriving DecidableEq, Repr

/-- The struct `lamparray_attributes_t`. -/
structure lamparray_attributes_t where
  lamp_count : Nat
  bounds : bounds_t
  kind : Nat
  update_interval : Nat
deriving DecidableEq, Repr

/-- The anonymous `position` struct of `lamparray_attributes_response_t` (three `int32_t`). -/
structure position_t where
  x : Int
  y : Int
  z : Int
deriving DecidableEq, Repr

/-- The struct `lamparray_attributes_response_t`. -/
structure lamparray_attributes_response_t where
  lamp_id : Nat
  position : position_t
  update_latency : Int
  purposes : Int
  levels : lamp_state_t
  is_programmable : Nat
  input_binding : Nat
deriving DecidableEq, Repr

/-- The struct `lamparray_range_update_t`; the field `end` of the source is `end_` here,
`end` being a keyword. -/
structure lamparray_range_update_t where
  flags : Nat
  start : Nat
  end_ : Nat
  color : lamp_state_t
deriving DecidableEq, Repr

/-- The struct `lamparray_multi_update_t`. The arrays `ids` and `colors` (eight entries each)
are lists read by position; a list shorter than eight stands for the array padded with
zero entries. -/
structure lamparray_multi_update_t where
  count : Nat
  flags : Nat
  ids : List Nat
  colors : List lamp_state_t
deriving DecidableEq, Repr

/-! ## Board configuration

Everything `lamparray.c` takes from the board's configuration and from headers outside
the files at hand: the macro constants and the RGB matrix layout tables. -/

/-- One entry of `g_led_config.point`. -/
structure led_point_t where
  x : Nat
  y : Nat
deriving DecidableEq, Repr

/-- The configuration the engine is compiled against. -/
structure Board where
  /-- The macro `LAMPARRAY_LAMP_COUNT` (`RGB_MATRIX_LED_COUNT`). -/
  LAMPARRAY_LAMP_COUNT : Nat
  /-- The macro `LAMPARRAY_UPDATE_INTERVAL`. -/
  LAMPARRAY_UPDATE_INTERVAL : Nat
  /-- The macro `LAMPARRAY_KIND`. -/
  LAMPARRAY_KIND : Nat
  /-- The macro `LAMPARRAY_WIDTH`. -/
  LAMPARRAY_WIDTH : Nat
  /-- The macro `LAMPARRAY_HEIGHT`. -/
  LAMPARRAY_HEIGHT : Nat
  /-- The macro `LAMPARRAY_DEPTH`. -/
  LAMPARRAY_DEPTH : Nat
  /-- The macro `MATRIX_ROWS`. -/
  MATRIX_ROWS : Nat
  /-- The macro `MATRIX_COLS`. -/
  MATRIX_COLS : Nat
  /-- The macro `LED_FLAG_UNDERGLOW`. -/
  LED_FLAG_UNDERGLOW : Nat
  /-- The table `g_led_config.matrix_co`. -/
  matrix_co : Nat → Nat → Nat
  /-- The table `g_led_config.point`; the array of the source has `LAMPARRAY_LAMP_COUNT`
  entries, an index from there on stands for a read past its end. -/
  point : Nat → led_point_t
  /-- The table `g_led_config.flags`; the array of the source has `LAMPARRAY_LAMP_COUNT`
  entries, an index from there on stands for a read past its end. -/
  flags : Nat → Nat
  /-- The keycode `keycode_at_keymap_location(get_highest_layer(default_layer_state), row, col)`. -/
  keycode_at_keymap_location : Nat → Nat → Nat
  /-- The macro `IS_BASIC_KEYCODE`. -/
  IS_BASIC_KEYCODE : Nat → Bool
  /-- The macro `IS_MODIFIER_KEYCODE`. -/
  IS_MODIFIER_KEYCODE : Nat → Bool

/-! ## Engine state and the backing store -/

/-- One call to the backing store. -/
inductive BackingCall where
  /-- A call `lamparray_backing_enable(value)`. -/
  | enable (value : Bool)
  /-- A call `lamparray_backing_set_item(index, color)`. -/
  | set_item (index : Nat) (color : lamp_state_t)
  /-- A call `lamparray_backing_update_finished()`. -/
  | update_finished
deriving DecidableEq, Repr

/-- The two static variables of `lamparray.c`, and the log of the calls made to the
backing store so far, oldest first. -/
structure Engine where
  cur_lamp_id : Nat
  is_autonomous : Bool
  backing : List BackingCall
deriving DecidableEq, Repr

/-- The state at power-on: `cur_lamp_id = 0`, `is_autonomous = true`, no call made. -/
def power_on : Engine :=
  { cur_lamp_id := 0, is_autonomous := true, backing := [] }

/-- Records a call `lamparray_backing_enable(enable)`. -/
def lamparray_backing_enable (enable : Bool) (s : Engine) : Engine :=
  { s with backing := s.backing ++ [BackingCall.enable enable] }

/-- Records a call `lamparray_backing_set_item(index, color)`. -/
def lamparray_backing_set_item (index : Nat) (color : lamp_state_t) (s : Engine) : Engine :=
  { s with backing := s.backing ++ [BackingCall.set_item index color] }

/-- Records a call `lamparray_backing_update_finished()`. -/
def lamparray_backing_update_finished (s : Engine) : Engine :=
  { s with backing := s.backing ++ [BackingCall.update_finished] }

/-! ## Attribute model -/

/-- Conversion of an integer to `int32_t`. -/
def to_int32 (v : Int) : Int :=
  (v + 2147483648) % 4294967296 - 2147483648

/-- The function `binding_at_keymap_location`, for the keyboard kind; the mouse branch of the
source refers to an undeclared name and is left out, any other kind yields 0. -/
def binding_at_keymap_location (cfg : Board) (row col : Nat) : Nat :=
  let keycode := cfg.keycode_at_keymap_location row col
  if cfg.LAMPARRAY_KIND = LAMPARRAY_KIND_KEYBOARD then
    if cfg.IS_BASIC_KEYCODE keycode || cfg.IS_MODIFIER_KEYCODE keycode then keycode else 0
  else 0

/-- The default `lamparray_get_lamp_info_data`: position and purposes from the LED layout.
It describes the source for `lamp_id` below `LAMPARRAY_LAMP_COUNT`; for a larger `lamp_id`
the source reads `g_led_config.point` and `g_led_config.flags` out of bounds, and the value
given here carries no meaning. -/
def lamparray_get_lamp_info_data (cfg : Board) (lamp_id : Nat)
    (data : lamparray_attributes_response_t) : lamparray_attributes_response_t :=
  let underglow : Bool := (cfg.flags lamp_id &&& cfg.LED_FLAG_UNDERGLOW) != 0
  { data with
    position :=
      { x := to_int32 (((cfg.LAMPARRAY_WIDTH / 224 : Nat) : Int) * ((cfg.point lamp_id).x : Int))
        y := to_int32 (((cfg.LAMPARRAY_HEIGHT / 64 : Nat) : Int) * (64 - ((cfg.point lamp_id).y : Int)))
        z := if underglow then to_int32 (cfg.LAMPARRAY_DEPTH : Int) else 0 }
    purposes := if underglow then (LAMP_PURPOSE_ACCENT : Int) else (LAMP_PURPOSE_CONTROL : Int) }

/-- The matrix locations in the order the two nested loops of `lamparray_get_lamp_binding`
visit them. -/
def matrix_locations (cfg : Board) : List (Nat × Nat) :=
  (List.range cfg.MATRIX_ROWS).flatMap fun i_row =>
    (List.range cfg.MATRIX_COLS).map fun i_col => (i_row, i_col)

/-- The default `lamparray_get_lamp_binding`: the binding of the first matrix location that
holds the lamp, truncated to `uint8_t`, or 0. -/
def lamparray_get_lamp_binding (cfg : Board) (lamp_id : Nat) : Nat :=
  match (matrix_locations cfg).find? fun p => cfg.matrix_co p.1 p.2 == lamp_id with
  | some p => binding_at_keymap_location cfg p.1 p.2 % 256
  | none => 0

/-- The function `lamparray_get_attributes`: fills `data` from the configuration; it reads
and writes neither static variable and calls no backing function, so the engine is handed
back as it came. -/
def lamparray_get_attributes (cfg : Board) (data : lamparray_attributes_t) (s : Engine) :
    lamparray_attributes_t × Engine :=
  ({ data with
      lamp_count := cfg.LAMPARRAY_LAMP_COUNT % 65536
      update_interval := cfg.LAMPARRAY_UPDATE_INTERVAL % 4294967296
      kind := cfg.LAMPARRAY_KIND % 4294967296
      bounds :=
        { width := cfg.LAMPARRAY_WIDTH % 4294967296
          height := cfg.LAMPARRAY_HEIGHT % 4294967296
          depth := cfg.LAMPARRAY_DEPTH % 4294967296 } }, s)

/-- The function `lamparray_get_lamp_info`. -/
def lamparray_get_lamp_info (cfg : Board) (lamp_id : Nat)
    (data : lamparray_attributes_response_t) : lamparray_attributes_response_t :=
  let data1 : lamparray_attributes_response_t :=
    { data with
      lamp_id := lamp_id
      update_latency := 1000
      is_programmable := 1
      input_binding := lamparray_get_lamp_binding cfg lamp_id
      levels :=
        { red := LAMPARRAY_RED_LEVELS
          green := LAMPARRAY_GREEN_LEVELS
          blue := LAMPARRAY_BLUE_LEVELS
          intensity := LAMPARRAY_INTENSITY_LEVELS } }
  lamparray_get_lamp_info_data cfg lamp_id data1

/-! ## Cursor and mode -/

/-- The function `lamparray_get_attributes_response`: fills `data` for the lamp under the
cursor, then increments the cursor (a `uint16_t`) and resets it to 0 once it reaches the
lamp count. -/
def lamparray_get_attributes_response (cfg : Board) (data : lamparray_attributes_response_t)
    (s : Engine) : lamparray_attributes_response_t × Engine :=
  let data1 := lamparray_get_lamp_info cfg s.cur_lamp_id data
  let s1 : Engine := { s with cur_lamp_id := (s.cur_lamp_id + 1) % 65536 }
  let s2 : Engine :=
    if s1.cur_lamp_id ≥ cfg.LAMPARRAY_LAMP_COUNT then { s1 with cur_lamp_id := 0 } else s1
  (data1, s2)

/-- The function `lamparray_set_attributes_response`. -/
def lamparray_set_attributes_response (lamp_id : Nat) (s : Engine) : Engine :=
  { s with cur_lamp_id := lamp_id }

/-- The function `lamparray_set_control_response`: `is_autonomous = !!autonomous`, then
`lamparray_backing_enable(!autonomous)`. -/
def lamparray_set_control_response (autonomous : Nat) (s : Engine) : Engine :=
  let s1 : Engine := { s with is_autonomous := autonomous != 0 }
  lamparray_backing_enable (autonomous == 0) s1

/-! ## Update handlers -/

/-- The loop of `lamparray_set_range`, `for (uint16_t index = start; index <= end; index++)`,
entered at `index`; the first argument bounds how often the body may still run. -/
def set_range_loop (color : lamp_state_t) (end_ : Nat) : Nat → Nat → Engine → Option Engine
  | 0, index, s => if index ≤ end_ then none else some s
  | fuel + 1, index, s =>
    if index ≤ end_ then
      set_range_loop color end_ fuel ((index + 1) % 65536)
        (lamparray_backing_set_item index color s)
    else some s

/-- The function `lamparray_set_range`. -/
def lamparray_set_range (cfg : Board) (fuel : Nat) (data : lamparray_range_update_t)
    (s : Engine) : Option Engine :=
  if s.is_autonomous then some s
  else if data.start ≥ cfg.LAMPARRAY_LAMP_COUNT ∨ data.end_ ≥ cfg.LAMPARRAY_LAMP_COUNT then
    some s
  else
    match set_range_loop data.color data.end_ fuel data.start s with
    | none => none
    | some s1 =>
      if data.flags &&& LAMP_UPDATE_FLAG_COMPLETE ≠ 0 then
        some (lamparray_backing_update_finished s1)
      else some s1

/-- The array read `data->ids[i]`. -/
def ids_at (data : lamparray_multi_update_t) (i : Nat) : Nat :=
  data.ids.getD i 0

/-- The array read `data->colors[i]`. -/
def colors_at (data : lamparray_multi_update_t) (i : Nat) : lamp_state_t :=
  data.colors.getD i { red := 0, green := 0, blue := 0, intensity := 0 }

/-- The loop of `lamparray_set_items`, `for (uint8_t i = 0; i < data->count; i++)`, entered
at `i`; the first argument bounds how often the body may still run. -/
def set_items_loop (cfg : Board) (data : lamparray_multi_update_t) :
    Nat → Nat → Engine → Option Engine
  | 0, i, s => if i < data.count then none else some s
  | fuel + 1, i, s =>
    if i < data.count then
      if ids_at data i ≥ cfg.LAMPARRAY_LAMP_COUNT then
        set_items_loop cfg data fuel ((i + 1) % 256) s
      else
        set_items_loop cfg data fuel ((i + 1) % 256)
          (lamparray_backing_set_item (ids_at data i) (colors_at data i) s)
    else some s

/-- The function `lamparray_set_items`. -/
def lamparray_set_items (cfg : Board) (fuel : Nat) (data : lamparray_multi_update_t)
    (s : Engine) : Option Engine :=
  if s.is_autonomous then some s
  else if data.count > LAMP_MULTI_UPDATE_LAMP_COUNT then some s
  else
    match set_items_loop cfg data fuel 0 s with
    | none => none
    | some s1 =>
      if data.flags &&& LAMP_UPDATE_FLAG_COMPLETE ≠ 0 then
        some (lamparray_backing_update_finished s1)
      else some s1

/-! ## Report dispatch (tmk_core/protocol/lamparray_report.h) -/

/-- The value of `LAMPARRAY_REPORT_ID_ATTRIBUTES`. -/
def LAMPARRAY_REPORT_ID_ATTRIBUTES : Nat := 0x01

/-- The value of `LAMPARRAY_REPORT_ID_ATTRIBUTES_REQUEST`. -/
def LAMPARRAY_REPORT_ID_ATTRIBUTES_REQUEST : Nat := 0x02

/-- The value of `LAMPARRAY_REPORT_ID_ATTRIBUTES_RESPONSE`. -/
def LAMPARRAY_REPORT_ID_ATTRIBUTES_RESPONSE : Nat := 0x03

/-- The value of `LAMPARRAY_REPORT_ID_MULTI_UPDATE`. -/
def LAMPARRAY_REPORT_ID_MULTI_UPDATE : Nat := 0x04

/-- The value of `LAMPARRAY_REPORT_ID_RANGE_UPDATE`. -/
def LAMPARRAY_REPORT_ID_RANGE_UPDATE : Nat := 0x05

/-- The value of `LAMPARRAY_REPORT_ID_CONTROL`. -/
def LAMPARRAY_REPORT_ID_CONTROL : Nat := 0x06

/-- The struct `universal_lamparray_response_t`: the tag and the union behind it. The four
members of the union are separate fields here; `lamparray_handle_set` reads only the member
its tag selects, so every byte content of the union is some choice of the four fields. -/
structure universal_lamparray_response_t where
  report_id : Nat
  lamp_id : Nat
  autonomous : Nat
  range_update : lamparray_range_update_t
  multi_update : lamparray_multi_update_t
deriving DecidableEq, Repr

/-- The function `lamparray_handle_set`: the `switch` on `report->report_id`; a tag without
a `case` falls through the `switch` with nothing done. -/
def lamparray_handle_set (cfg : Board) (fuel : Nat) (report : universal_lamparray_response_t)
    (s : Engine) : Option Engine :=
  if report.report_id = LAMPARRAY_REPORT_ID_ATTRIBUTES_REQUEST then
    some (lamparray_set_attributes_response report.lamp_id s)
  else if report.report_id = LAMPARRAY_REPORT_ID_RANGE_UPDATE then
    lamparray_set_range cfg fuel report.range_update s
  else if report.report_id = LAMPARRAY_REPORT_ID_MULTI_UPDATE then
    lamparray_set_items cfg fuel report.multi_update s
  else if report.report_id = LAMPARRAY_REPORT_ID_CONTROL then
    some (lamparray_set_control_response report.autonomous s)
  else some s

/-! ## Drivers and sample data for concrete instances -/

/-- The engine after `lamparray_handle_set` has handled the reports of a list one after the
other, each with the same fuel. -/
def handle_reports (cfg : Board) (fuel : Nat) :
    List universal_lamparray_response_t → Engine → Option Engine
  | [], s => some s
  | report :: rest, s =>
    match lamparray_handle_set cfg fuel report s with
    | none => none
    | some s1 => handle_reports cfg fuel rest s1

/-- A report with tag `report_id` whose union members are all zero. -/
def blank_report (report_id : Nat) : universal_lamparray_response_t :=
  { report_id := report_id
    lamp_id := 0
    autonomous := 0
    range_update :=
      { flags := 0, start := 0, end_ := 0,
        color := { red := 0, green := 0, blue := 0, intensity := 0 } }
    multi_update := { count := 0, flags := 0, ids := [], colors := [] } }

/-- The responses of `k` consecutive calls of `lamparray_get_attributes_response`, each made
with the buffer `data`, and the engine state after the last call. -/
def get_attributes_responses (cfg : Board) (data : lamparray_attributes_response_t) :
    Nat → Engine → List lamparray_attributes_response_t × Engine
  | 0, s => ([], s)
  | k + 1, s =>
    let r := lamparray_get_attributes_response cfg data s
    let rest := get_attributes_responses cfg data k r.2
    (r.1 :: rest.1, rest.2)

/-- A board with `n` lamps on a single matrix row, lamp `i` under key `(0, i)`; used for
concrete instances only. -/
def sample_board (n : Nat) : Board :=
  { LAMPARRAY_LAMP_COUNT := n
    LAMPARRAY_UPDATE_INTERVAL := 1000
    LAMPARRAY_KIND := LAMPARRAY_KIND_KEYBOARD
    LAMPARRAY_WIDTH := 224000
    LAMPARRAY_HEIGHT := 64000
    LAMPARRAY_DEPTH := 30000
    MATRIX_ROWS := 1
    MATRIX_COLS := n
    LED_FLAG_UNDERGLOW := 0x02
    matrix_co := fun _ i_col => i_col
    point := fun i => { x := i, y := 0 }
    flags := fun _ => 0x04
    keycode_at_keymap_location := fun _ i_col => 4 + i_col
    IS_BASIC_KEYCODE := fun k => decide (k ≤ 0xFF)
    IS_MODIFIER_KEYCODE := fun k => decide (0xE0 ≤ k ∧ k ≤ 0xE7) }

/-- An all-zero response buffer. -/
def blank_response : lamparray_attributes_response_t :=
  { lamp_id := 0
    position := { x := 0, y := 0, z := 0 }
    update_latency := 0
    purposes := 0
    levels := { red := 0, green := 0, blue := 0, intensity := 0 }
    is_programmable := 0
    input_binding := 0 }

/-- The engine in host-controlled mode with cursor 0 and no backing call made yet. -/
def host_controlled : Engine :=
  { cur_lamp_id := 0, is_autonomous := false, backing := [] }

/-- A sample colour. -/
def red_lamp : lamp_state_t :=
  { red := 255, green := 0, blue := 0, intensity := 1 }

/-- A second sample colour. -/
def blue_lamp : lamp_state_t :=
  { red := 0, green := 0, blue := 255, intensity := 1 }

end LampArray

/-!
# Potentiometer polling (quantum/potentiometer.c)

The mapping of a raw ADC reading to the output range and the change filter, with the
filter's static array passed in and handed back.
-/

namespace Potentiometer

/-- The default value of `POTENTIOMETER_OUTPUT_MIN_VALUE`. -/
def POTENTIOMETER_OUTPUT_MIN_VALUE : Nat := 0

/-- The default value of `POTENTIOMETER_OUTPUT_MAX_VALUE`. -/
def POTENTIOMETER_OUTPUT_MAX_VALUE : Nat := 127

/-- The default value of `POTENTIOMETER_ADC_MIN_VALUE`. -/
def POTENTIOMETER_ADC_MIN_VALUE : Nat := 0

/-- The default value of `POTENTIOMETER_ADC_MAX_VALUE`, `(1 << 10)`. -/
def POTENTIOMETER_ADC_MAX_VALUE : Nat := 1 <<< 10

/-- The value of `UINT16_MAX`. -/
def UINT16_MAX : Nat := 65535

/-- Subtraction of `uint32_t` values. -/
def sub_u32 (x y : Nat) : Nat :=
  (x % 4294967296 + 4294967296 - y % 4294967296) % 4294967296

/-- Multiplication of `uint32_t` values. -/
def mul_u32 (x y : Nat) : Nat :=
  (x * y) % 4294967296

/-- Addition of `uint32_t` values. -/
def add_u32 (x y : Nat) : Nat :=
  (x + y) % 4294967296

/-- The default `potentiometer_map`: `((b - a) * (value - min) / (max - min)) + a` in
`uint32_t` arithmetic, returned as `uint16_t`. -/
def potentiometer_map (index : Nat) (value : Nat) : Nat :=
  let _ := index
  let a := POTENTIOMETER_OUTPUT_MIN_VALUE % 4294967296
  let b := POTENTIOMETER_OUTPUT_MAX_VALUE % 4294967296
  let min := POTENTIOMETER_ADC_MIN_VALUE % 4294967296
  let max := POTENTIOMETER_ADC_MAX_VALUE % 4294967296
  add_u32 (mul_u32 (sub_u32 b a) (sub_u32 value min) / sub_u32 max min) a % 65536

/-- Conversion of an integer to `bool`: nonzero is `true`. -/
def to_bool (v : Nat) : Bool :=
  v != 0

/-- The integer value of a `bool` in a comparison: 1 for `true`, 0 for `false`. -/
def bool_value (b : Bool) : Nat :=
  if b then 1 else 0

/-- The initial content of the array `static bool potentiometer_state[NUM_POTENTIOMETERS]`,
whose initialiser list holds the single value `UINT16_MAX`, for `num` potentiometers: the
first element is `UINT16_MAX` converted to `bool`, the elements after it are
zero-initialised. -/
def potentiometer_state_init : Nat → List Bool
  | 0 => []
  | num + 1 => to_bool UINT16_MAX :: List.replicate num false

/-- The default `potentiometer_filter`, with the static array `potentiometer_state` passed
in and handed back: no change when `value` equals the stored element, else the element is
overwritten with `value` converted to `bool`. -/
def potentiometer_filter (index value : Nat) (potentiometer_state : List Bool) :
    Bool × List Bool :=
  if value = bool_value (potentiometer_state.getD index false) then
    (false, potentiometer_state)
  else (true, potentiometer_state.set index (to_bool value))

end Potentiometer

namespace LampArray

/-! ## Helper lemmas -/

theorem lamp_info_lamp_id (cfg : Board) (lamp_id : Nat) (data : lamparray_attributes_response_t) :
    (lamparray_get_lamp_info cfg lamp_id data).lamp_id = lamp_id := by
  simp [lamparray_get_lamp_info, lamparray_get_lamp_info_data]

theorem response_fst (cfg : Board) (data : lamparray_attributes_response_t) (s : Engine) :
    (lamparray_get_attributes_response cfg data s).1 =
      lamparray_get_lamp_info cfg s.cur_lamp_id data := by
  simp [lamparray_get_attributes_response]

theorem response_cursor (cfg : Board) (data : lamparray_attributes_response_t) (s : Engine) :
    (lamparray_get_attributes_response cfg data s).2.cur_lamp_id =
      if (s.cur_lamp_id + 1) % 65536 ≥ cfg.LAMPARRAY_LAMP_COUNT then 0
      else (s.cur_lamp_id + 1) % 65536 := by
  simp only [lamparray_get_attributes_response]
  split <;> rfl

theorem response_cursor_in_range (cfg : Board) (data : lamparray_attributes_response_t)
    (s : Engine) (hN : cfg.LAMPARRAY_LAMP_COUNT < 65536)
    (hc : s.cur_lamp_id < cfg.LAMPARRAY_LAMP_COUNT) :
    (lamparray_get_attributes_response cfg data s).2.cur_lamp_id =
      (s.cur_lamp_id + 1) % cfg.LAMPARRAY_LAMP_COUNT := by
  rw [response_cursor]
  have h1 : (s.cur_lamp_id + 1) % 65536 = s.cur_lamp_id + 1 := by omega
  rw [h1]
  split
  · have h2 : s.cur_lamp_id + 1 = cfg.LAMPARRAY_LAMP_COUNT := by omega
    rw [h2, Nat.mod_self]
  · rw [Nat.mod_eq_of_lt (by omega)]

theorem responses_from (cfg : Board) (data : lamparray_attributes_response_t)
    (hN : cfg.LAMPARRAY_LAMP_COUNT < 65536) :
    ∀ (k : Nat) (s : Engine), s.cur_lamp_id + k ≤ cfg.LAMPARRAY_LAMP_COUNT →
      ((get_attributes_responses cfg data k s).1.map fun d => d.lamp_id) =
          List.range' s.cur_lamp_id k ∧
        (k ≠ 0 → (get_attributes_responses cfg data k s).2.cur_lamp_id =
          (s.cur_lamp_id + k) % cfg.LAMPARRAY_LAMP_COUNT) := by
  intro k
  induction k with
  | zero => intro s _; simp [get_attributes_responses]
  | succ k ih =>
    intro s hk
    have hc : s.cur_lamp_id < cfg.LAMPARRAY_LAMP_COUNT := by omega
    have hcur := response_cursor_in_range cfg data s hN hc
    simp only [get_attributes_responses, List.map_cons, response_fst, lamp_info_lamp_id,
      List.range'_succ]
    by_cases hlast : s.cur_lamp_id + 1 = cfg.LAMPARRAY_LAMP_COUNT
    · have hk0 : k = 0 := by omega
      subst hk0
      simp [get_attributes_responses, hcur]
    · have hnext : (lamparray_get_attributes_response cfg data s).2.cur_lamp_id =
          s.cur_lamp_id + 1 := by
        rw [hcur, Nat.mod_eq_of_lt (by omega)]
      have := ih (lamparray_get_attributes_response cfg data s).2 (by rw [hnext]; omega)
      rw [hnext] at this
      refine ⟨by rw [this.1], fun _ => ?_⟩
      by_cases hk0 : k = 0
      · subst hk0
        simp [get_attributes_responses, hcur]
      · rw [this.2 hk0]
        congr 1
        omega

theorem set_range_loop_eq (color : lamp_state_t) (e : Nat) (he : e < 65535) :
    ∀ (fuel index : Nat) (s : Engine), e + 1 - index ≤ fuel →
      set_range_loop color e fuel index s =
        some { s with backing := s.backing ++
          (List.range' index (e + 1 - index)).map fun i => BackingCall.set_item i color } := by
  intro fuel
  induction fuel with
  | zero =>
    intro index s h
    have h0 : e + 1 - index = 0 := by omega
    have hn : ¬ index ≤ e := by omega
    simp [set_range_loop, hn, h0]
  | succ fuel ih =>
    intro index s h
    by_cases hle : index ≤ e
    · have hm : (index + 1) % 65536 = index + 1 := by omega
      have hc : e + 1 - index = (e + 1 - (index + 1)) + 1 := by omega
      rw [set_range_loop, if_pos hle, hm, ih _ _ (by omega), hc, List.range'_succ]
      simp [lamparray_backing_set_item]
    · have h0 : e + 1 - index = 0 := by omega
      simp [set_range_loop, hle, h0]

theorem set_items_loop_eq (cfg : Board) (data : lamparray_multi_update_t)
    (hcount : data.count < 256) :
    ∀ (fuel i : Nat) (s : Engine), data.count - i ≤ fuel →
      set_items_loop cfg data fuel i s =
        some { s with backing := s.backing ++
          ((List.range' i (data.count - i)).filter fun j =>
              decide (ids_at data j < cfg.LAMPARRAY_LAMP_COUNT)).map fun j =>
            BackingCall.set_item (ids_at data j) (colors_at data j) } := by
  intro fuel
  induction fuel with
  | zero =>
    intro i s h
    have h0 : data.count - i = 0 := by omega
    have hn : ¬ i < data.count := by omega
    simp [set_items_loop, hn, h0]
  | succ fuel ih =>
    intro i s h
    by_cases hlt : i < data.count
    · have hm : (i + 1) % 256 = i + 1 := by omega
      have hc : data.count - i = (data.count - (i + 1)) + 1 := by omega
      rw [set_items_loop, if_pos hlt, hm, hc, List.range'_succ]
      by_cases hid : ids_at data i ≥ cfg.LAMPARRAY_LAMP_COUNT
      · have hnot : ¬ ids_at data i < cfg.LAMPARRAY_LAMP_COUNT := by omega
        rw [if_pos hid, ih _ _ (by omega)]
        simp [List.filter_cons, hnot]
      · have hin : ids_at data i < cfg.LAMPARRAY_LAMP_COUNT := by omega
        rw [if_neg hid, ih _ _ (by omega)]
        simp [List.filter_cons, hin, lamparray_backing_set_item]
    · have h0 : data.count - i = 0 := by omega
      simp [set_items_loop, hlt, h0]

theorem set_range_accepted (cfg : Board) (fuel : Nat) (data : lamparray_range_update_t)
    (s : Engine) (h : s.is_autonomous = false) (hN : cfg.LAMPARRAY_LAMP_COUNT < 65536)
    (hs : data.start < cfg.LAMPARRAY_LAMP_COUNT) (he : data.end_ < cfg.LAMPARRAY_LAMP_COUNT)
    (hfuel : data.end_ + 1 - data.start ≤ fuel) :
    lamparray_set_range cfg fuel data s =
      some { s with backing := s.backing ++
        ((List.range' data.start (data.end_ + 1 - data.start)).map fun i =>
          BackingCall.set_item i data.color) ++
        if data.flags &&& LAMP_UPDATE_FLAG_COMPLETE ≠ 0 then [BackingCall.update_finished]
        else [] } := by
  have hb : ¬ (data.start ≥ cfg.LAMPARRAY_LAMP_COUNT ∨ data.end_ ≥ cfg.LAMPARRAY_LAMP_COUNT) := by
    omega
  have hloop := set_range_loop_eq data.color data.end_ (by omega) fuel data.start s hfuel
  simp only [lamparray_set_range, h, if_neg hb, hloop]
  by_cases hf : data.flags &&& LAMP_UPDATE_FLAG_COMPLETE = 0
  · simp [hf]
  · simp [hf, lamparray_backing_update_finished]

theorem set_range_not_accepted (cfg : Board) (fuel : Nat) (data : lamparray_range_update_t)
    (s : Engine)
    (h : ¬ (s.is_autonomous = false ∧ data.start < cfg.LAMPARRAY_LAMP_COUNT ∧
      data.end_ < cfg.LAMPARRAY_LAMP_COUNT)) :
    lamparray_set_range cfg fuel data s = some s := by
  by_cases ha : s.is_autonomous = true
  · simp [lamparray_set_range, ha]
  · have hb : data.start ≥ cfg.LAMPARRAY_LAMP_COUNT ∨ data.end_ ≥ cfg.LAMPARRAY_LAMP_COUNT := by
      have ha2 : s.is_autonomous = false := by simpa using ha
      by_contra hcon
      exact h ⟨ha2, by omega, by omega⟩
    simp only [lamparray_set_range, if_neg ha, if_pos hb]

theorem set_items_accepted (cfg : Board) (fuel : Nat) (data : lamparray_multi_update_t)
    (s : Engine) (h : s.is_autonomous = false)
    (hcount : data.count ≤ LAMP_MULTI_UPDATE_LAMP_COUNT) (hfuel : data.count ≤ fuel) :
    lamparray_set_items cfg fuel data s =
      some { s with backing := s.backing ++
        (((List.range data.count).filter fun i =>
            decide (ids_at data i < cfg.LAMPARRAY_LAMP_COUNT)).map fun i =>
          BackingCall.set_item (ids_at data i) (colors_at data i)) ++
        if data.flags &&& LAMP_UPDATE_FLAG_COMPLETE ≠ 0 then [BackingCall.update_finished]
        else [] } := by
  have hc : ¬ data.count > LAMP_MULTI_UPDATE_LAMP_COUNT := by omega
  have h8 : data.count < 256 := by
    have : LAMP_MULTI_UPDATE_LAMP_COUNT = 8 := rfl
    omega
  have hloop := set_items_loop_eq cfg data h8 fuel 0 s (by omega)
  rw [Nat.sub_zero, ← List.range_eq_range'] at hloop
  simp only [lamparray_set_items, h, if_neg hc, hloop]
  by_cases hf : data.flags &&& LAMP_UPDATE_FLAG_COMPLETE = 0
  · simp [hf]
  · simp [hf, lamparray_backing_update_finished]

theorem set_items_not_accepted (cfg : Board) (fuel : Nat) (data : lamparray_multi_update_t)
    (s : Engine)
    (h : ¬ (s.is_autonomous = false ∧ data.count ≤ LAMP_MULTI_UPDATE_LAMP_COUNT)) :
    lamparray_set_items cfg fuel data s = some s := by
  by_cases ha : s.is_autonomous = true
  · simp [lamparray_set_items, ha]
  · have hb : data.count > LAMP_MULTI_UPDATE_LAMP_COUNT := by
      have ha2 : s.is_autonomous = false := by simpa using ha
      by_contra hcon
      exact h ⟨ha2, by omega⟩
    simp only [lamparray_set_items, if_neg ha, if_pos hb]

/-! ## Attribute cursor -/

/-- C1: for a lamp count that fits `uint16_t` and a cursor `c` below it,
`lamparray_get_attributes_response` returns a response whose `lamp_id` is `c` and leaves
the cursor at `(c + 1) mod lamp_count`. -/
theorem get_attributes_response_reads_cursor (cfg : Board)
    (data : lamparray_attributes_response_t) (s : Engine)
    (hN : cfg.LAMPARRAY_LAMP_COUNT < 65536)
    (hc : s.cur_lamp_id < cfg.LAMPARRAY_LAMP_COUNT) :
    (lamparray_get_attributes_response cfg data s).1.lamp_id = s.cur_lamp_id ∧
      (lamparray_get_attributes_response cfg data s).2.cur_lamp_id =
        (s.cur_lamp_id + 1) % cfg.LAMPARRAY_LAMP_COUNT :=
  ⟨by rw [response_fst, lamp_info_lamp_id], response_cursor_in_range cfg data s hN hc⟩

/-- Instance of C1 at the last lamp of a board with 5 lamps: the response carries
`lamp_id = 4` and the cursor wraps to 0. -/
theorem get_attributes_response_reads_cursor_witness :
    (sample_board 5).LAMPARRAY_LAMP_COUNT < 65536 ∧
      ({ host_controlled with cur_lamp_id := 4 } : Engine).cur_lamp_id <
        (sample_board 5).LAMPARRAY_LAMP_COUNT ∧
      (lamparray_get_attributes_response (sample_board 5) blank_response
        { host_controlled with cur_lamp_id := 4 }).1.lamp_id = 4 ∧
      (lamparray_get_attributes_response (sample_board 5) blank_response
        { host_controlled with cur_lamp_id := 4 }).2.cur_lamp_id = 0 :=
  ⟨by decide, by decide,
    get_attributes_response_reads_cursor (sample_board 5) blank_response
      { host_controlled with cur_lamp_id := 4 } (by decide) (by decide)⟩

/-- C2: for a lamp count `N ≥ 1` that fits `uint16_t`, `N` consecutive calls of
`lamparray_get_attributes_response` from cursor 0 return the lamp ids `0, 1, ..., N-1` in
that order and leave the cursor at 0. -/
theorem get_attributes_responses_full_cycle (cfg : Board)
    (data : lamparray_attributes_response_t) (s : Engine)
    (hN : cfg.LAMPARRAY_LAMP_COUNT < 65536) (hpos : 1 ≤ cfg.LAMPARRAY_LAMP_COUNT)
    (h0 : s.cur_lamp_id = 0) :
    ((get_attributes_responses cfg data cfg.LAMPARRAY_LAMP_COUNT s).1.map fun d => d.lamp_id) =
        List.range cfg.LAMPARRAY_LAMP_COUNT ∧
      (get_attributes_responses cfg data cfg.LAMPARRAY_LAMP_COUNT s).2.cur_lamp_id = 0 := by
  have h := responses_from cfg data hN cfg.LAMPARRAY_LAMP_COUNT s (by omega)
  rw [h0] at h
  refine ⟨by rw [h.1, List.range_eq_range'], ?_⟩
  rw [h.2 (by omega)]
  simp

/-- Instance of C2 on a board with 3 lamps: three reads from the power-on state return the
lamp ids 0, 1, 2 and the cursor is 0 again. -/
theorem get_attributes_responses_full_cycle_witness :
    (sample_board 3).LAMPARRAY_LAMP_COUNT < 65536 ∧ 1 ≤ (sample_board 3).LAMPARRAY_LAMP_COUNT ∧
      power_on.cur_lamp_id = 0 ∧
      ((get_attributes_responses (sample_board 3) blank_response 3 power_on).1.map
        fun d => d.lamp_id) = [0, 1, 2] ∧
      (get_attributes_responses (sample_board 3) blank_response 3 power_on).2.cur_lamp_id = 0 :=
  ⟨by decide, by decide, rfl,
    get_attributes_responses_full_cycle (sample_board 3) blank_response power_on
      (by decide) (by decide) rfl⟩

/-! ## Mode gating and request validation -/

/-- C3: in autonomous mode `lamparray_set_range` and `lamparray_set_items` return with the
engine unchanged for every request and every fuel: the log of backing-store calls gains
no `set_item` and no `update_finished`. -/
theorem autonomous_mode_ignores_updates (cfg : Board) (fuel : Nat)
    (range : lamparray_range_update_t) (multi : lamparray_multi_update_t) (s : Engine)
    (h : s.is_autonomous = true) :
    lamparray_set_range cfg fuel range s = some s ∧
      lamparray_set_items cfg fuel multi s = some s := by
  simp [lamparray_set_range, lamparray_set_items, h]

/-- Instance of C3 at power-on (autonomous) with a valid, flagged range update and a valid,
flagged multi update on a board with 10 lamps. -/
theorem autonomous_mode_ignores_updates_witness :
    power_on.is_autonomous = true ∧
      lamparray_set_range (sample_board 10) 8
        { flags := 1, start := 0, end_ := 3, color := red_lamp } power_on = some power_on ∧
      lamparray_set_items (sample_board 10) 8
        { count := 2, flags := 1, ids := [1, 2], colors := [red_lamp, blue_lamp] } power_on =
          some power_on :=
  ⟨rfl, autonomous_mode_ignores_updates (sample_board 10) 8
    { flags := 1, start := 0, end_ := 3, color := red_lamp }
    { count := 2, flags := 1, ids := [1, 2], colors := [red_lamp, blue_lamp] } power_on rfl⟩

/-- C4: in host-controlled mode a range update with `start >= lamp_count` or
`end >= lamp_count` returns with the engine unchanged, whatever the flags, the colour and
the fuel: no `set_item` and no `update_finished` is logged. -/
theorem set_range_rejects_out_of_bounds (cfg : Board) (fuel : Nat)
    (data : lamparray_range_update_t) (s : Engine) (h : s.is_autonomous = false)
    (hb : data.start ≥ cfg.LAMPARRAY_LAMP_COUNT ∨ data.end_ ≥ cfg.LAMPARRAY_LAMP_COUNT) :
    lamparray_set_range cfg fuel data s = some s := by
  simp only [lamparray_set_range, h, if_pos hb]
  simp

/-- Instance of C4 with `start = 0` and `end = lamp_count = 10`, the complete flag set. -/
theorem set_range_rejects_out_of_bounds_witness :
    host_controlled.is_autonomous = false ∧
      ((0 : Nat) ≥ (sample_board 10).LAMPARRAY_LAMP_COUNT ∨
        (10 : Nat) ≥ (sample_board 10).LAMPARRAY_LAMP_COUNT) ∧
      lamparray_set_range (sample_board 10) 16
        { flags := 1, start := 0, end_ := 10, color := red_lamp } host_controlled =
          some host_controlled :=
  ⟨rfl, by decide,
    set_range_rejects_out_of_bounds (sample_board 10) 16
      { flags := 1, start := 0, end_ := 10, color := red_lamp } host_controlled rfl
      (by decide)⟩

/-- Counterexample to C5 as stated: with 10 lamps, host-controlled mode, `start = 5`,
`end = 3` and the complete flag set, `lamparray_set_range` writes nothing but does call
`lamparray_backing_update_finished` once. -/
theorem set_range_empty_range_flushes :
    lamparray_set_range (sample_board 10) 0
      { flags := 1, start := 5, end_ := 3, color := red_lamp } host_controlled =
        some { host_controlled with backing := [BackingCall.update_finished] } := by
  decide

/-- C5 (amended): with 10 lamps in host-controlled mode, a range update with `start = 5`
and `end = 3` makes no `set_item` call for every flags, colour and fuel; it makes no
`update_finished` call when bit 0x01 of the flags is clear, and exactly one when it is set. -/
theorem set_range_empty_range (cfg : Board) (fuel flags : Nat) (color : lamp_state_t)
    (s : Engine) (hN : cfg.LAMPARRAY_LAMP_COUNT = 10) (h : s.is_autonomous = false) :
    lamparray_set_range cfg fuel { flags := flags, start := 5, end_ := 3, color := color } s =
      some { s with backing := s.backing ++
        if flags &&& LAMP_UPDATE_FLAG_COMPLETE ≠ 0 then [BackingCall.update_finished]
        else [] } := by
  have hloop : set_range_loop color 3 fuel 5 s = some s := by
    cases fuel <;> simp [set_range_loop]
  simp only [lamparray_set_range, hN, hloop]
  rw [if_neg (by simp [h])]
  by_cases hf : flags &&& LAMP_UPDATE_FLAG_COMPLETE = 0
  · simp [hf]
  · simp [hf, lamparray_backing_update_finished]

/-- Instance of C5 (amended) with the complete flag clear: the engine is unchanged. -/
theorem set_range_empty_range_witness :
    (sample_board 10).LAMPARRAY_LAMP_COUNT = 10 ∧ host_controlled.is_autonomous = false ∧
      lamparray_set_range (sample_board 10) 4
        { flags := 0, start := 5, end_ := 3, color := blue_lamp } host_controlled =
          some { host_controlled with backing := host_controlled.backing ++ [] } :=
  ⟨rfl, rfl, set_range_empty_range (sample_board 10) 4 0 blue_lamp host_controlled rfl rfl⟩

/-! ## Accepted updates -/

/-- C6: in host-controlled mode, with a lamp count that fits `uint16_t`, a range update
with `start <= end < lamp_count` returns (given fuel for `end - start + 1` iterations) and
its `set_item` calls are exactly `(start, color), (start+1, color), ..., (end, color)`, in
ascending order, `end - start + 1` writes in total, followed only by the
`update_finished` call the complete flag asks for. -/
theorem set_range_writes_inclusive_range (cfg : Board) (fuel : Nat)
    (data : lamparray_range_update_t) (s : Engine) (h : s.is_autonomous = false)
    (hN : cfg.LAMPARRAY_LAMP_COUNT < 65536) (hse : data.start ≤ data.end_)
    (he : data.end_ < cfg.LAMPARRAY_LAMP_COUNT) (hfuel : data.end_ - data.start + 1 ≤ fuel) :
    lamparray_set_range cfg fuel data s =
        some { s with backing := s.backing ++
          ((List.range' data.start (data.end_ - data.start + 1)).map fun i =>
            BackingCall.set_item i data.color) ++
          if data.flags &&& LAMP_UPDATE_FLAG_COMPLETE ≠ 0 then [BackingCall.update_finished]
          else [] } ∧
      ((List.range' data.start (data.end_ - data.start + 1)).map fun i =>
        BackingCall.set_item i data.color).length = data.end_ - data.start + 1 := by
  refine ⟨?_, by simp⟩
  have hn : data.end_ + 1 - data.start = data.end_ - data.start + 1 := by omega
  rw [set_range_accepted cfg fuel data s h hN (by omega) he (by omega), hn]

/-- Instance of C6: lamps 2 to 4 of 10, complete flag clear, three writes. -/
theorem set_range_writes_inclusive_range_witness :
    host_controlled.is_autonomous = false ∧ (sample_board 10).LAMPARRAY_LAMP_COUNT < 65536 ∧
      (2 : Nat) ≤ 4 ∧ (4 : Nat) < (sample_board 10).LAMPARRAY_LAMP_COUNT ∧ (4 : Nat) - 2 + 1 ≤ 3 ∧
      lamparray_set_range (sample_board 10) 3
        { flags := 0, start := 2, end_ := 4, color := red_lamp } host_controlled =
          some { host_controlled with backing :=
            [BackingCall.set_item 2 red_lamp, BackingCall.set_item 3 red_lamp,
              BackingCall.set_item 4 red_lamp] } :=
  ⟨rfl, by decide, by decide, by decide, by decide,
    (set_range_writes_inclusive_range (sample_board 10) 3
      { flags := 0, start := 2, end_ := 4, color := red_lamp } host_controlled rfl
      (by decide) (by decide) (by decide) (by decide)).1⟩

/-- C7: in host-controlled mode a multi update with `count <= 8` returns (given fuel for
`count` iterations) and its `set_item` calls are exactly `(ids[i], colors[i])` for
`i = 0 .. count-1` in increasing `i`, restricted to the `i` with `ids[i] < lamp_count`,
followed only by the `update_finished` call the complete flag asks for. -/
theorem set_items_writes_valid_entries (cfg : Board) (fuel : Nat)
    (data : lamparray_multi_update_t) (s : Engine) (h : s.is_autonomous = false)
    (hcount : data.count ≤ LAMP_MULTI_UPDATE_LAMP_COUNT) (hfuel : data.count ≤ fuel) :
    lamparray_set_items cfg fuel data s =
      some { s with backing := s.backing ++
        (((List.range data.count).filter fun i =>
            decide (ids_at data i < cfg.LAMPARRAY_LAMP_COUNT)).map fun i =>
          BackingCall.set_item (ids_at data i) (colors_at data i)) ++
        if data.flags &&& LAMP_UPDATE_FLAG_COMPLETE ≠ 0 then [BackingCall.update_finished]
        else [] } :=
  set_items_accepted cfg fuel data s h hcount hfuel

/-- Instance of C7: `lamp_count = 4`, `ids = [0, 9, 2]`, `count = 3`, complete flag clear;
exactly lamps 0 and 2 are written, lamp id 9 is skipped. -/
theorem set_items_writes_valid_entries_witness :
    host_controlled.is_autonomous = false ∧ (3 : Nat) ≤ LAMP_MULTI_UPDATE_LAMP_COUNT ∧
      (3 : Nat) ≤ 3 ∧
      lamparray_set_items (sample_board 4) 3
        { count := 3, flags := 0, ids := [0, 9, 2, 1, 1, 1, 1, 1],
          colors := [red_lamp, blue_lamp, blue_lamp, red_lamp, red_lamp, red_lamp, red_lamp,
            red_lamp] } host_controlled =
        some { host_controlled with backing :=
          [BackingCall.set_item 0 red_lamp, BackingCall.set_item 2 blue_lamp] } :=
  ⟨rfl, by decide, by decide,
    set_items_writes_valid_entries (sample_board 4) 3
      { count := 3, flags := 0, ids := [0, 9, 2, 1, 1, 1, 1, 1],
        colors := [red_lamp, blue_lamp, blue_lamp, red_lamp, red_lamp, red_lamp, red_lamp,
          red_lamp] } host_controlled rfl (by decide) (by decide)⟩

/-- C8: a multi update with `count > 8` returns with the engine unchanged in either mode,
for every flags, ids and fuel: no `set_item` and no `update_finished` is logged. -/
theorem set_items_rejects_oversize (cfg : Board) (fuel : Nat)
    (data : lamparray_multi_update_t) (s : Engine)
    (hcount : data.count > LAMP_MULTI_UPDATE_LAMP_COUNT) :
    lamparray_set_items cfg fuel data s = some s := by
  simp only [lamparray_set_items, if_pos hcount]
  split <;> rfl

/-- Instance of C8: `count = 9` in host-controlled mode with valid ids and the complete
flag set. -/
theorem set_items_rejects_oversize_witness :
    (9 : Nat) > LAMP_MULTI_UPDATE_LAMP_COUNT ∧
      lamparray_set_items (sample_board 10) 16
        { count := 9, flags := 1, ids := [0, 1, 2, 3, 4, 5, 6, 7],
          colors := [red_lamp, red_lamp, red_lamp, red_lamp, red_lamp, red_lamp, red_lamp,
            red_lamp] } host_controlled = some host_controlled :=
  ⟨by decide,
    set_items_rejects_oversize (sample_board 10) 16
      { count := 9, flags := 1, ids := [0, 1, 2, 3, 4, 5, 6, 7],
        colors := [red_lamp, red_lamp, red_lamp, red_lamp, red_lamp, red_lamp, red_lamp,
          red_lamp] } host_controlled (by decide)⟩

/-! ## Flush on batch completion -/

/-- Counterexample to C9 as stated: at power-on (autonomous mode) a valid range update and
a valid multi update, both with the complete flag set, leave the engine unchanged, so
`update_finished` is called zero times, not once. -/
theorem complete_flag_ignored_when_autonomous :
    (1 &&& LAMP_UPDATE_FLAG_COMPLETE ≠ 0) ∧
      lamparray_set_range (sample_board 10) 8
        { flags := 1, start := 0, end_ := 3, color := red_lamp } power_on = some power_on ∧
      lamparray_set_items (sample_board 10) 8
        { count := 2, flags := 1, ids := [1, 2], colors := [red_lamp, blue_lamp] } power_on =
          some power_on ∧
      power_on.backing.count BackingCall.update_finished = 0 := by
  decide

/-- C9 (amended): with a lamp count that fits `uint16_t` and fuel for the iterations of the
loops, `lamparray_set_range` and `lamparray_set_items` return, and the calls they add to the
log are `set_item` writes followed by at most one `update_finished`: none when bit 0x01 of
the flags is clear (in any engine state) and none when the request is ignored or rejected;
exactly one, as the last call after all writes, when the bit is set and the request is
accepted (host-controlled mode, and `start < lamp_count` and `end < lamp_count` for a range
update, `count <= 8` for a multi update). -/
theorem flush_follows_complete_flag (cfg : Board) (fuel : Nat)
    (range : lamparray_range_update_t) (multi : lamparray_multi_update_t) (s : Engine)
    (hN : cfg.LAMPARRAY_LAMP_COUNT < 65536)
    (hfr : range.end_ + 1 - range.start ≤ fuel)
    (hfm : LAMP_MULTI_UPDATE_LAMP_COUNT ≤ fuel) :
    (∃ writes : List BackingCall,
      (∀ c ∈ writes, ∃ i color, c = BackingCall.set_item i color) ∧
      lamparray_set_range cfg fuel range s =
        some { s with backing := s.backing ++ writes ++
          if range.flags &&& LAMP_UPDATE_FLAG_COMPLETE ≠ 0 ∧
              (s.is_autonomous = false ∧ range.start < cfg.LAMPARRAY_LAMP_COUNT ∧
                range.end_ < cfg.LAMPARRAY_LAMP_COUNT)
          then [BackingCall.update_finished] else [] }) ∧
    (∃ writes : List BackingCall,
      (∀ c ∈ writes, ∃ i color, c = BackingCall.set_item i color) ∧
      lamparray_set_items cfg fuel multi s =
        some { s with backing := s.backing ++ writes ++
          if multi.flags &&& LAMP_UPDATE_FLAG_COMPLETE ≠ 0 ∧
              (s.is_autonomous = false ∧ multi.count ≤ LAMP_MULTI_UPDATE_LAMP_COUNT)
          then [BackingCall.update_finished] else [] }) := by
  constructor
  · by_cases hacc : s.is_autonomous = false ∧ range.start < cfg.LAMPARRAY_LAMP_COUNT ∧
        range.end_ < cfg.LAMPARRAY_LAMP_COUNT
    · refine ⟨(List.range' range.start (range.end_ + 1 - range.start)).map fun i =>
          BackingCall.set_item i range.color, ?_, ?_⟩
      · intro c hc
        obtain ⟨i, _, rfl⟩ := List.mem_map.1 hc
        exact ⟨i, range.color, rfl⟩
      · rw [set_range_accepted cfg fuel range s hacc.1 hN hacc.2.1 hacc.2.2 hfr]
        simp only [hacc, and_self, and_true]
    · refine ⟨[], by simp, ?_⟩
      rw [set_range_not_accepted cfg fuel range s hacc]
      simp [hacc]
  · by_cases hacc : s.is_autonomous = false ∧ multi.count ≤ LAMP_MULTI_UPDATE_LAMP_COUNT
    · refine ⟨((List.range multi.count).filter fun i =>
          decide (ids_at multi i < cfg.LAMPARRAY_LAMP_COUNT)).map fun i =>
          BackingCall.set_item (ids_at multi i) (colors_at multi i), ?_, ?_⟩
      · intro c hc
        obtain ⟨i, _, rfl⟩ := List.mem_map.1 hc
        exact ⟨ids_at multi i, colors_at multi i, rfl⟩
      · rw [set_items_accepted cfg fuel multi s hacc.1 hacc.2 (by omega)]
        simp only [hacc, and_self, and_true]
    · refine ⟨[], by simp, ?_⟩
      rw [set_items_not_accepted cfg fuel multi s hacc]
      simp [hacc]

/-- Instance of C9 (amended) in host-controlled mode on a board with 10 lamps: an accepted
range update with the complete flag set ends with the one `update_finished` call, an
accepted multi update with the flag clear makes none. -/
theorem flush_follows_complete_flag_witness :
    (sample_board 10).LAMPARRAY_LAMP_COUNT < 65536 ∧ (4 : Nat) + 1 - 2 ≤ 8 ∧
      LAMP_MULTI_UPDATE_LAMP_COUNT ≤ 8 ∧
      (∃ writes : List BackingCall,
        (∀ c ∈ writes, ∃ i color, c = BackingCall.set_item i color) ∧
        lamparray_set_range (sample_board 10) 8
            { flags := 1, start := 2, end_ := 4, color := red_lamp } host_controlled =
          some { host_controlled with backing :=
            host_controlled.backing ++ writes ++ [BackingCall.update_finished] }) ∧
      (∃ writes : List BackingCall,
        (∀ c ∈ writes, ∃ i color, c = BackingCall.set_item i color) ∧
        lamparray_set_items (sample_board 10) 8
            { count := 2, flags := 0, ids := [1, 2], colors := [red_lamp, blue_lamp] }
            host_controlled =
          some { host_controlled with backing := host_controlled.backing ++ writes ++ [] }) :=
  ⟨by decide, by decide, by decide,
    flush_follows_complete_flag (sample_board 10) 8
      { flags := 1, start := 2, end_ := 4, color := red_lamp }
      { count := 2, flags := 0, ids := [1, 2], colors := [red_lamp, blue_lamp] }
      host_controlled (by decide) (by decide) (by decide)⟩

/-! ## Mode switch -/

/-- C10: for every argument `a`, `lamparray_set_control_response a` stores
`is_autonomous = (a != 0)` and adds exactly one call to the log, `enable (a == 0)`, and no
`set_item` or `update_finished`: `enable true` for `a = 0`, `enable false` for `a = 1`;
a second call with the same argument leaves cursor and mode flag as the first call left
them. -/
theorem set_control_response_effect (a : Nat) (s : Engine) :
    (lamparray_set_control_response a s).is_autonomous = (a != 0) ∧
      (lamparray_set_control_response a s).backing =
        s.backing ++ [BackingCall.enable (a == 0)] ∧
      (lamparray_set_control_response 0 s).backing = s.backing ++ [BackingCall.enable true] ∧
      (lamparray_set_control_response 1 s).backing = s.backing ++ [BackingCall.enable false] ∧
      (lamparray_set_control_response a (lamparray_set_control_response a s)).is_autonomous =
        (lamparray_set_control_response a s).is_autonomous ∧
      (lamparray_set_control_response a (lamparray_set_control_response a s)).cur_lamp_id =
        (lamparray_set_control_response a s).cur_lamp_id := by
  simp [lamparray_set_control_response, lamparray_backing_enable]

/-! ## Further helper lemmas -/

theorem set_range_returns (cfg : Board) (fuel : Nat) (data : lamparray_range_update_t)
    (s : Engine) (hN : cfg.LAMPARRAY_LAMP_COUNT < 65536)
    (hfuel : data.end_ + 1 - data.start ≤ fuel) :
    ∃ calls : List BackingCall,
      lamparray_set_range cfg fuel data s = some { s with backing := s.backing ++ calls } ∧
        ∀ index color, BackingCall.set_item index color ∈ calls →
          index < cfg.LAMPARRAY_LAMP_COUNT := by
  by_cases hacc : s.is_autonomous = false ∧ data.start < cfg.LAMPARRAY_LAMP_COUNT ∧
      data.end_ < cfg.LAMPARRAY_LAMP_COUNT
  · refine ⟨((List.range' data.start (data.end_ + 1 - data.start)).map fun i =>
        BackingCall.set_item i data.color) ++
        (if data.flags &&& LAMP_UPDATE_FLAG_COMPLETE ≠ 0 then [BackingCall.update_finished]
          else []), ?_, ?_⟩
    · rw [set_range_accepted cfg fuel data s hacc.1 hN hacc.2.1 hacc.2.2 hfuel,
        List.append_assoc]
    · intro index color hmem
      rcases List.mem_append.1 hmem with hw | hf
      · obtain ⟨i, hi, heq⟩ := List.mem_map.1 hw
        have hidx : i = index := by injection heq
        have hr := List.mem_range'_1.1 hi
        omega
      · split at hf <;> simp at hf
  · refine ⟨[], ?_, by simp⟩
    rw [set_range_not_accepted cfg fuel data s hacc]
    simp

theorem set_items_returns (cfg : Board) (fuel : Nat) (data : lamparray_multi_update_t)
    (s : Engine) (hfuel : LAMP_MULTI_UPDATE_LAMP_COUNT ≤ fuel) :
    ∃ calls : List BackingCall,
      lamparray_set_items cfg fuel data s = some { s with backing := s.backing ++ calls } ∧
        ∀ index color, BackingCall.set_item index color ∈ calls →
          index < cfg.LAMPARRAY_LAMP_COUNT := by
  by_cases hacc : s.is_autonomous = false ∧ data.count ≤ LAMP_MULTI_UPDATE_LAMP_COUNT
  · refine ⟨(((List.range data.count).filter fun i =>
          decide (ids_at data i < cfg.LAMPARRAY_LAMP_COUNT)).map fun i =>
        BackingCall.set_item (ids_at data i) (colors_at data i)) ++
        (if data.flags &&& LAMP_UPDATE_FLAG_COMPLETE ≠ 0 then [BackingCall.update_finished]
          else []), ?_, ?_⟩
    · rw [set_items_accepted cfg fuel data s hacc.1 hacc.2 (by omega), List.append_assoc]
    · intro index color hmem
      rcases List.mem_append.1 hmem with hw | hf
      · obtain ⟨i, hi, heq⟩ := List.mem_map.1 hw
        have hidx : ids_at data i = index := by injection heq
        have hlt := (List.mem_filter.1 hi).2
        rw [← hidx]
        simpa using hlt
      · split at hf <;> simp at hf
  · refine ⟨[], ?_, by simp⟩
    rw [set_items_not_accepted cfg fuel data s hacc]
    simp

/-! ## Index safety -/

/-- C11: with a lamp count that fits `uint16_t` and fuel for the iterations of the loops,
`lamparray_set_range` and `lamparray_set_items` return for every engine state and every
request, and every index they pass to `lamparray_backing_set_item` is strictly below the
lamp count. -/
theorem set_item_index_below_lamp_count (cfg : Board) (fuel : Nat)
    (range : lamparray_range_update_t) (multi : lamparray_multi_update_t) (s : Engine)
    (hN : cfg.LAMPARRAY_LAMP_COUNT < 65536)
    (hfr : range.end_ + 1 - range.start ≤ fuel)
    (hfm : LAMP_MULTI_UPDATE_LAMP_COUNT ≤ fuel) :
    (∃ calls : List BackingCall,
      lamparray_set_range cfg fuel range s = some { s with backing := s.backing ++ calls } ∧
        ∀ index color, BackingCall.set_item index color ∈ calls →
          index < cfg.LAMPARRAY_LAMP_COUNT) ∧
    (∃ calls : List BackingCall,
      lamparray_set_items cfg fuel multi s = some { s with backing := s.backing ++ calls } ∧
        ∀ index color, BackingCall.set_item index color ∈ calls →
          index < cfg.LAMPARRAY_LAMP_COUNT) :=
  ⟨set_range_returns cfg fuel range s hN hfr, set_items_returns cfg fuel multi s hfm⟩

/-- Instance of C11 on a board with 4 lamps in host-controlled mode: a range update over
lamps 1 to 3 and a multi update whose ids include the out-of-range 9 and 4. -/
theorem set_item_index_below_lamp_count_witness :
    (sample_board 4).LAMPARRAY_LAMP_COUNT < 65536 ∧ (3 : Nat) + 1 - 1 ≤ 8 ∧
      LAMP_MULTI_UPDATE_LAMP_COUNT ≤ 8 ∧
      (∃ calls : List BackingCall,
        lamparray_set_range (sample_board 4) 8
            { flags := 1, start := 1, end_ := 3, color := red_lamp } host_controlled =
          some { host_controlled with backing := host_controlled.backing ++ calls } ∧
          ∀ index color, BackingCall.set_item index color ∈ calls →
            index < (sample_board 4).LAMPARRAY_LAMP_COUNT) ∧
      (∃ calls : List BackingCall,
        lamparray_set_items (sample_board 4) 8
            { count := 4, flags := 1, ids := [0, 9, 2, 4],
              colors := [red_lamp, blue_lamp, blue_lamp, red_lamp] } host_controlled =
          some { host_controlled with backing := host_controlled.backing ++ calls } ∧
          ∀ index color, BackingCall.set_item index color ∈ calls →
            index < (sample_board 4).LAMPARRAY_LAMP_COUNT) :=
  ⟨by decide, by decide, by decide,
    set_item_index_below_lamp_count (sample_board 4) 8
      { flags := 1, start := 1, end_ := 3, color := red_lamp }
      { count := 4, flags := 1, ids := [0, 9, 2, 4],
        colors := [red_lamp, blue_lamp, blue_lamp, red_lamp] } host_controlled
      (by decide) (by decide) (by decide)⟩

/-- C12 (the code at the failing input): on a board with 5 lamps, after
`lamparray_set_attributes_response 7` from power-on the cursor is 7, and the next
`lamparray_get_attributes_response` passes 7 to `lamparray_get_lamp_info`: the response is
the one computed for lamp id 7, which is not below the lamp count. -/
theorem out_of_range_cursor_is_read_unchecked :
    (lamparray_set_attributes_response 7 power_on).cur_lamp_id = 7 ∧
      (lamparray_get_attributes_response (sample_board 5) blank_response
          (lamparray_set_attributes_response 7 power_on)).1 =
        lamparray_get_lamp_info (sample_board 5) 7 blank_response ∧
      (lamparray_get_attributes_response (sample_board 5) blank_response
          (lamparray_set_attributes_response 7 power_on)).1.lamp_id = 7 ∧
      ¬ 7 < (sample_board 5).LAMPARRAY_LAMP_COUNT := by
  refine ⟨rfl, rfl, ?_, by decide⟩
  rw [response_fst, lamp_info_lamp_id]
  rfl

/-- C14: with a lamp count that fits `uint16_t` and fuel for the iterations of the loops,
`lamparray_set_range` and `lamparray_set_items` return an engine with the cursor and the
autonomous flag of the engine they were given, for every request;
`lamparray_get_attributes` hands the engine back unchanged;
`lamparray_set_attributes_response` and `lamparray_get_attributes_response` leave the
autonomous flag and the log of backing calls unchanged; `lamparray_set_control_response`
leaves the cursor unchanged. -/
theorem engine_state_frame (cfg : Board) (fuel : Nat) (range : lamparray_range_update_t)
    (multi : lamparray_multi_update_t) (attributes : lamparray_attributes_t)
    (data : lamparray_attributes_response_t) (lamp_id autonomous : Nat) (s : Engine)
    (hN : cfg.LAMPARRAY_LAMP_COUNT < 65536)
    (hfr : range.end_ + 1 - range.start ≤ fuel)
    (hfm : LAMP_MULTI_UPDATE_LAMP_COUNT ≤ fuel) :
    (∃ s1, lamparray_set_range cfg fuel range s = some s1 ∧
      s1.cur_lamp_id = s.cur_lamp_id ∧ s1.is_autonomous = s.is_autonomous) ∧
    (∃ s1, lamparray_set_items cfg fuel multi s = some s1 ∧
      s1.cur_lamp_id = s.cur_lamp_id ∧ s1.is_autonomous = s.is_autonomous) ∧
    (lamparray_get_attributes cfg attributes s).2 = s ∧
    ((lamparray_set_attributes_response lamp_id s).is_autonomous = s.is_autonomous ∧
      (lamparray_set_attributes_response lamp_id s).backing = s.backing) ∧
    ((lamparray_get_attributes_response cfg data s).2.is_autonomous = s.is_autonomous ∧
      (lamparray_get_attributes_response cfg data s).2.backing = s.backing) ∧
    (lamparray_set_control_response autonomous s).cur_lamp_id = s.cur_lamp_id := by
  obtain ⟨c1, h1, _⟩ := set_range_returns cfg fuel range s hN hfr
  obtain ⟨c2, h2, _⟩ := set_items_returns cfg fuel multi s hfm
  refine ⟨⟨_, h1, rfl, rfl⟩, ⟨_, h2, rfl, rfl⟩, rfl, ⟨rfl, rfl⟩, ⟨?_, ?_⟩, rfl⟩
  · simp only [lamparray_get_attributes_response]
    split <;> rfl
  · simp only [lamparray_get_attributes_response]
    split <;> rfl

/-- Instance of C14 in host-controlled mode with the cursor at 2 on a board with 10 lamps:
an accepted range update and an accepted multi update. -/
theorem engine_state_frame_witness :
    (sample_board 10).LAMPARRAY_LAMP_COUNT < 65536 ∧ (4 : Nat) + 1 - 2 ≤ 8 ∧
      LAMP_MULTI_UPDATE_LAMP_COUNT ≤ 8 ∧
      (∃ s1, lamparray_set_range (sample_board 10) 8
          { flags := 1, start := 2, end_ := 4, color := red_lamp }
          { host_controlled with cur_lamp_id := 2 } = some s1 ∧
        s1.cur_lamp_id = 2 ∧ s1.is_autonomous = false) ∧
      (∃ s1, lamparray_set_items (sample_board 10) 8
          { count := 2, flags := 1, ids := [1, 2], colors := [red_lamp, blue_lamp] }
          { host_controlled with cur_lamp_id := 2 } = some s1 ∧
        s1.cur_lamp_id = 2 ∧ s1.is_autonomous = false) :=
  have h := engine_state_frame (sample_board 10) 8
    { flags := 1, start := 2, end_ := 4, color := red_lamp }
    { count := 2, flags := 1, ids := [1, 2], colors := [red_lamp, blue_lamp] }
    { lamp_count := 0, bounds := { width := 0, height := 0, depth := 0 }, kind := 0,
      update_interval := 0 }
    blank_response 3 0 { host_controlled with cur_lamp_id := 2 }
    (by decide) (by decide) (by decide)
  ⟨by decide, by decide, by decide, h.1, h.2.1⟩

/-! ## Report dispatch -/

theorem handle_set_keeps_autonomous (cfg : Board) (fuel : Nat)
    (report : universal_lamparray_response_t) (s : Engine) (ha : s.is_autonomous = true)
    (hb : ∀ c ∈ s.backing, c = BackingCall.enable false)
    (hr : ¬ (report.report_id = LAMPARRAY_REPORT_ID_CONTROL ∧ report.autonomous = 0)) :
    ∃ s1, lamparray_handle_set cfg fuel report s = some s1 ∧ s1.is_autonomous = true ∧
      ∀ c ∈ s1.backing, c = BackingCall.enable false := by
  unfold lamparray_handle_set
  by_cases h2 : report.report_id = LAMPARRAY_REPORT_ID_ATTRIBUTES_REQUEST
  · rw [if_pos h2]
    exact ⟨_, rfl, ha, hb⟩
  · rw [if_neg h2]
    by_cases h5 : report.report_id = LAMPARRAY_REPORT_ID_RANGE_UPDATE
    · rw [if_pos h5]
      exact ⟨s, by simp [lamparray_set_range, ha], ha, hb⟩
    · rw [if_neg h5]
      by_cases h4 : report.report_id = LAMPARRAY_REPORT_ID_MULTI_UPDATE
      · rw [if_pos h4]
        exact ⟨s, by simp [lamparray_set_items, ha], ha, hb⟩
      · rw [if_neg h4]
        by_cases h6 : report.report_id = LAMPARRAY_REPORT_ID_CONTROL
        · rw [if_pos h6]
          have hne : report.autonomous ≠ 0 := fun h0 => hr ⟨h6, h0⟩
          refine ⟨_, rfl, ?_, ?_⟩
          · simp [lamparray_set_control_response, lamparray_backing_enable, hne]
          · intro c hc
            simp only [lamparray_set_control_response, lamparray_backing_enable,
              List.mem_append, List.mem_singleton] at hc
            rcases hc with hc | hc
            · exact hb c hc
            · rw [hc]
              simp [hne]
        · rw [if_neg h6]
          exact ⟨s, rfl, ha, hb⟩

theorem handle_reports_keep_autonomous (cfg : Board) (fuel : Nat) :
    ∀ (reports : List universal_lamparray_response_t) (s : Engine),
      s.is_autonomous = true → (∀ c ∈ s.backing, c = BackingCall.enable false) →
      (∀ r ∈ reports, ¬ (r.report_id = LAMPARRAY_REPORT_ID_CONTROL ∧ r.autonomous = 0)) →
      ∃ s1, handle_reports cfg fuel reports s = some s1 ∧ s1.is_autonomous = true ∧
        ∀ c ∈ s1.backing, c = BackingCall.enable false := by
  intro reports
  induction reports with
  | nil => intro s ha hb _; exact ⟨s, rfl, ha, hb⟩
  | cons r rest ih =>
    intro s ha hb hr
    obtain ⟨s1, h1, ha1, hb1⟩ :=
      handle_set_keeps_autonomous cfg fuel r s ha hb (hr r (List.mem_cons_self r rest))
    obtain ⟨s2, h2, ha2, hb2⟩ :=
      ih s1 ha1 hb1 fun r2 hr2 => hr r2 (List.mem_cons_of_mem r hr2)
    exact ⟨s2, by simp only [handle_reports, h1, h2], ha2, hb2⟩

/-- C15: from the power-on state, `lamparray_handle_set` fed any finite list of reports
none of which is a Control report (tag 0x06) with `autonomous = 0` returns for each of
them, and the log of backing calls then holds no `set_item` and no `update_finished`
call. -/
theorem no_update_before_host_control (cfg : Board) (fuel : Nat)
    (reports : List universal_lamparray_response_t)
    (h : ∀ r ∈ reports, ¬ (r.report_id = 0x06 ∧ r.autonomous = 0)) :
    ∃ s1, handle_reports cfg fuel reports power_on = some s1 ∧
      (∀ index color, BackingCall.set_item index color ∉ s1.backing) ∧
      BackingCall.update_finished ∉ s1.backing := by
  obtain ⟨s1, h1, _, hb⟩ := handle_reports_keep_autonomous cfg fuel reports power_on rfl
    (by intro c hc; cases hc) h
  refine ⟨s1, h1, ?_, ?_⟩
  · intro index color hmem
    cases hb _ hmem
  · intro hmem
    cases hb _ hmem

/-- Instance of C15: a flagged range update, a Control report with `autonomous = 1`, a
flagged multi update and a cursor request, fed to the engine at power-on. -/
theorem no_update_before_host_control_witness :
    (∀ r ∈ [{ blank_report 0x05 with
                range_update := { flags := 1, start := 0, end_ := 3, color := red_lamp } },
              { blank_report 0x06 with autonomous := 1 },
              { blank_report 0x04 with
                multi_update :=
                  { count := 2, flags := 1, ids := [1, 2], colors := [red_lamp, blue_lamp] } },
              { blank_report 0x02 with lamp_id := 3 }],
        ¬ (r.report_id = 0x06 ∧ r.autonomous = 0)) ∧
      ∃ s1, handle_reports (sample_board 5) 8
          [{ blank_report 0x05 with
              range_update := { flags := 1, start := 0, end_ := 3, color := red_lamp } },
            { blank_report 0x06 with autonomous := 1 },
            { blank_report 0x04 with
              multi_update :=
                { count := 2, flags := 1, ids := [1, 2], colors := [red_lamp, blue_lamp] } },
            { blank_report 0x02 with lamp_id := 3 }] power_on = some s1 ∧
        (∀ index color, BackingCall.set_item index color ∉ s1.backing) ∧
        BackingCall.update_finished ∉ s1.backing :=
  ⟨by decide, no_update_before_host_control (sample_board 5) 8 _ (by decide)⟩

theorem to_int32_of_small (n : Nat) (h : n ≤ 2147483647) : to_int32 (n : Int) = (n : Int) := by
  unfold to_int32
  omega

theorem scaled_le (total parts k : Nat) (hk : k ≤ parts) : total / parts * k ≤ total :=
  Nat.le_trans (Nat.mul_le_mul_left (total / parts) hk) (Nat.div_mul_le_self total parts)

/-- Counterexample to C17 as stated: with `LAMPARRAY_WIDTH = 4294967295`, a width the
`uint32_t` field `bounds.width` can declare, a lamp at `x = 224` gets the position
`x = -32`, which is below 0. -/
theorem lamp_position_wraps_for_wide_bounds :
    (lamparray_get_lamp_info_data
      { sample_board 3 with
        LAMPARRAY_WIDTH := 4294967295
        point := fun _ => { x := 224, y := 0 } } 0 blank_response).position.x = -32 := by
  decide

/-- C17 (amended): for declared `LAMPARRAY_WIDTH`, `LAMPARRAY_HEIGHT` and `LAMPARRAY_DEPTH`
that fit `int32_t`, and a lamp whose layout point has `x <= 224` and `y <= 64`, the default
`lamparray_get_lamp_info_data` computes `position.x = (WIDTH / 224) * x` and
`position.y = (HEIGHT / 64) * (64 - y)`, with `0 <= position.x <= WIDTH` and
`0 <= position.y <= HEIGHT`, and `position.z` is 0 or `LAMPARRAY_DEPTH`. -/
theorem lamp_position_in_bounds (cfg : Board) (lamp_id : Nat)
    (data : lamparray_attributes_response_t)
    (hx : (cfg.point lamp_id).x ≤ 224) (hy : (cfg.point lamp_id).y ≤ 64)
    (hW : cfg.LAMPARRAY_WIDTH ≤ 2147483647) (hH : cfg.LAMPARRAY_HEIGHT ≤ 2147483647)
    (hD : cfg.LAMPARRAY_DEPTH ≤ 2147483647) :
    (lamparray_get_lamp_info_data cfg lamp_id data).position.x =
        ((cfg.LAMPARRAY_WIDTH / 224 * (cfg.point lamp_id).x : Nat) : Int) ∧
      0 ≤ (lamparray_get_lamp_info_data cfg lamp_id data).position.x ∧
      (lamparray_get_lamp_info_data cfg lamp_id data).position.x ≤ (cfg.LAMPARRAY_WIDTH : Int) ∧
      (lamparray_get_lamp_info_data cfg lamp_id data).position.y =
        ((cfg.LAMPARRAY_HEIGHT / 64 * (64 - (cfg.point lamp_id).y) : Nat) : Int) ∧
      0 ≤ (lamparray_get_lamp_info_data cfg lamp_id data).position.y ∧
      (lamparray_get_lamp_info_data cfg lamp_id data).position.y ≤ (cfg.LAMPARRAY_HEIGHT : Int) ∧
      ((lamparray_get_lamp_info_data cfg lamp_id data).position.z = 0 ∨
        (lamparray_get_lamp_info_data cfg lamp_id data).position.z =
          (cfg.LAMPARRAY_DEPTH : Int)) := by
  have hxle := scaled_le cfg.LAMPARRAY_WIDTH 224 (cfg.point lamp_id).x hx
  have hyle := scaled_le cfg.LAMPARRAY_HEIGHT 64 (64 - (cfg.point lamp_id).y) (by omega)
  have hxeq : (lamparray_get_lamp_info_data cfg lamp_id data).position.x =
      ((cfg.LAMPARRAY_WIDTH / 224 * (cfg.point lamp_id).x : Nat) : Int) := by
    simp only [lamparray_get_lamp_info_data]
    rw [← Nat.cast_mul]
    exact to_int32_of_small _ (by omega)
  have hyeq : (lamparray_get_lamp_info_data cfg lamp_id data).position.y =
      ((cfg.LAMPARRAY_HEIGHT / 64 * (64 - (cfg.point lamp_id).y) : Nat) : Int) := by
    simp only [lamparray_get_lamp_info_data]
    have hcast : ((64 : Int) - ((cfg.point lamp_id).y : Int)) =
        ((64 - (cfg.point lamp_id).y : Nat) : Int) := by omega
    rw [hcast, ← Nat.cast_mul]
    exact to_int32_of_small _ (by omega)
  refine ⟨hxeq, ?_, ?_, hyeq, ?_, ?_, ?_⟩
  · rw [hxeq]; exact Int.ofNat_nonneg _
  · rw [hxeq]; exact Int.ofNat_le.2 hxle
  · rw [hyeq]; exact Int.ofNat_nonneg _
  · rw [hyeq]; exact Int.ofNat_le.2 hyle
  · simp only [lamparray_get_lamp_info_data]
    split
    · right
      exact to_int32_of_small _ hD
    · left
      rfl

/-- Instance of C17 (amended): lamp 2 of the sample board (224000 by 64000, layout point
`(2, 0)`) is placed at `x = 2000`, `y = 64000`, `z = 0`. -/
theorem lamp_position_in_bounds_witness :
    ((sample_board 3).point 2).x ≤ 224 ∧ ((sample_board 3).point 2).y ≤ 64 ∧
      (sample_board 3).LAMPARRAY_WIDTH ≤ 2147483647 ∧
      (sample_board 3).LAMPARRAY_HEIGHT ≤ 2147483647 ∧
      (sample_board 3).LAMPARRAY_DEPTH ≤ 2147483647 ∧
      (lamparray_get_lamp_info_data (sample_board 3) 2 blank_response).position.x = 2000 ∧
      (lamparray_get_lamp_info_data (sample_board 3) 2 blank_response).position.y = 64000 :=
  have h := lamp_position_in_bounds (sample_board 3) 2 blank_response
    (by decide) (by decide) (by decide) (by decide) (by decide)
  ⟨by decide, by decide, by decide, by decide, by decide, h.1, h.2.2.2.1⟩

/-! ## Termination of the range loop -/

theorem set_range_loop_none (color : lamp_state_t) (e : Nat) (he : e < 65535) :
    ∀ (fuel index : Nat) (s : Engine), fuel < e + 1 - index →
      set_range_loop color e fuel index s = none := by
  intro fuel
  induction fuel with
  | zero =>
    intro index s h
    have hle : index ≤ e := by omega
    simp [set_range_loop, hle]
  | succ fuel ih =>
    intro index s h
    have hle : index ≤ e := by omega
    have hm : (index + 1) % 65536 = index + 1 := by omega
    rw [set_range_loop, if_pos hle, hm]
    exact ih _ _ (by omega)

/-- C18: for a lamp count of at most 65535 and every range update, `lamparray_set_range`
returns once the fuel covers `max(0, end - start + 1)` runs of the loop body; for an
accepted request (host-controlled mode, `start` and `end` below the lamp count) the body
runs exactly that often: the writes are for the consecutive indices `start, start+1, ...,
end` (no index wraps), and with less fuel the loop is cut short. -/
theorem set_range_terminates (cfg : Board) (data : lamparray_range_update_t) (s : Engine)
    (hN : cfg.LAMPARRAY_LAMP_COUNT ≤ 65535) :
    (∀ fuel, data.end_ + 1 - data.start ≤ fuel →
      ∃ s1, lamparray_set_range cfg fuel data s = some s1) ∧
    (s.is_autonomous = false ∧ data.start < cfg.LAMPARRAY_LAMP_COUNT ∧
        data.end_ < cfg.LAMPARRAY_LAMP_COUNT →
      (∀ fuel, data.end_ + 1 - data.start ≤ fuel →
        lamparray_set_range cfg fuel data s =
          some { s with backing := s.backing ++
            ((List.range' data.start (data.end_ + 1 - data.start)).map fun i =>
              BackingCall.set_item i data.color) ++
            if data.flags &&& LAMP_UPDATE_FLAG_COMPLETE ≠ 0 then [BackingCall.update_finished]
            else [] }) ∧
      ((List.range' data.start (data.end_ + 1 - data.start)).map fun i =>
        BackingCall.set_item i data.color).length = data.end_ + 1 - data.start ∧
      (∀ fuel, fuel < data.end_ + 1 - data.start →
        lamparray_set_range cfg fuel data s = none)) := by
  refine ⟨?_, ?_⟩
  · intro fuel hfuel
    obtain ⟨calls, hc, _⟩ := set_range_returns cfg fuel data s (by omega) hfuel
    exact ⟨_, hc⟩
  · intro hacc
    refine ⟨?_, by simp, ?_⟩
    · intro fuel hfuel
      exact set_range_accepted cfg fuel data s hacc.1 (by omega) hacc.2.1 hacc.2.2 hfuel
    · intro fuel hfuel
      have hb : ¬ (data.start ≥ cfg.LAMPARRAY_LAMP_COUNT ∨
          data.end_ ≥ cfg.LAMPARRAY_LAMP_COUNT) := by omega
      have hloop := set_range_loop_none data.color data.end_ (by omega) fuel data.start s hfuel
      simp only [lamparray_set_range, hacc.1, if_neg hb, hloop]
      simp

/-- Instance of C18 with the largest lamp count, 65535, in host-controlled mode: the range
update over lamps 65532 to 65534 returns with fuel 3 and is cut short with fuel 2. -/
theorem set_range_terminates_witness :
    (sample_board 65535).LAMPARRAY_LAMP_COUNT ≤ 65535 ∧
      (∃ s1, lamparray_set_range (sample_board 65535) 3
        { flags := 0, start := 65532, end_ := 65534, color := red_lamp } host_controlled =
          some s1) ∧
      lamparray_set_range (sample_board 65535) 2
        { flags := 0, start := 65532, end_ := 65534, color := red_lamp } host_controlled =
          none :=
  have h := set_range_terminates (sample_board 65535)
    { flags := 0, start := 65532, end_ := 65534, color := red_lamp } host_controlled
    (by decide)
  ⟨by decide, h.1 3 (by decide), (h.2 ⟨rfl, by decide, by decide⟩).2.2 2 (by decide)⟩

end LampArray

namespace Potentiometer

/-! ## Potentiometer mapping and filter -/

theorem potentiometer_map_eq (index v : Nat) (hv : v < 65536) :
    potentiometer_map index v = 127 * v / 1024 := by
  have hmax : POTENTIOMETER_ADC_MAX_VALUE = 1024 := by decide
  have hb : sub_u32 (127 % 4294967296) (0 % 4294967296) = 127 := by decide
  have hd : sub_u32 (1024 % 4294967296) (0 % 4294967296) = 1024 := by decide
  have hs : sub_u32 v (0 % 4294967296) = v := by
    unfold sub_u32
    omega
  have hm : mul_u32 127 v = 127 * v := by
    unfold mul_u32
    omega
  simp only [potentiometer_map, hmax, POTENTIOMETER_OUTPUT_MIN_VALUE,
    POTENTIOMETER_OUTPUT_MAX_VALUE, POTENTIOMETER_ADC_MIN_VALUE, hb, hd, hs, hm]
  unfold add_u32
  omega

/-- C19 (the code at failing inputs): with one potentiometer, a first sample of 1 is
reported as no change; with two, a first sample of 0 on the second is reported as no
change; and a sample of 5 is reported as a change on the first call and again on a
following call with the same value. -/
theorem potentiometer_filter_first_sample :
    (potentiometer_filter 0 1 (potentiometer_state_init 1)).1 = false ∧
      (potentiometer_filter 1 0 (potentiometer_state_init 2)).1 = false ∧
      (potentiometer_filter 0 5 (potentiometer_state_init 1)).1 = true ∧
      (potentiometer_filter 0 5
        (potentiometer_filter 0 5 (potentiometer_state_init 1)).2).1 = true := by
  decide

/-- C20: with the default constants, for raw values `v <= w <= 1024` the default
`potentiometer_map` returns `(127 * v) / 1024`, the product stays below `2^32`, the result
is at most 127 (and at least 0, being a natural number), the map is monotone
(`map v <= map w`), and `map 0 = 0`, `map 1024 = 127`. -/
theorem potentiometer_map_default (index v w : Nat) (hvw : v ≤ w) (hw : w ≤ 1024) :
    potentiometer_map index v = 127 * v / 1024 ∧
      127 * v < 4294967296 ∧
      potentiometer_map index v ≤ 127 ∧
      potentiometer_map index v ≤ potentiometer_map index w ∧
      potentiometer_map index 0 = 0 ∧
      potentiometer_map index 1024 = 127 := by
  rw [potentiometer_map_eq index v (by omega), potentiometer_map_eq index w (by omega),
    potentiometer_map_eq index 0 (by omega), potentiometer_map_eq index 1024 (by omega)]
  refine ⟨rfl, by omega, by omega, by omega, by omega, by omega⟩

/-- Instance of C20 at the raw values 512 and 1024: they map to 63 and 127. -/
theorem potentiometer_map_default_witness :
    (512 : Nat) ≤ 1024 ∧ (1024 : Nat) ≤ 1024 ∧ potentiometer_map 0 512 = 63 ∧
      potentiometer_map 0 512 ≤ potentiometer_map 0 1024 :=
  have h := potentiometer_map_default 0 512 1024 (by decide) (by decide)
  ⟨by decide, by decide, h.1, h.2.2.2.1⟩

end Potentiometer
